import Mathlib

/-!
Formal model of the teleprompter/recorder controller implemented in the
repository's main application file (a React single-page app).  The model is a
shallow embedding: each event handler of the component becomes a pure function
on an explicit state record, and the browser platform's contracts (clamping of
the `scrollTop` property, `MediaRecorder.isTypeSupported`, `navigator.share`
availability) are modelled as parameters or explicit clamping functions.

Scroll offsets and speeds are modelled as rationals; the source works in
JavaScript numbers, and every concrete value used below (multiples of 0.3,
0.5-stepped slider values) is computed exactly by both semantics.
-/

namespace Teleprompter

/-- A recorded media object: the ordered chunk sequence it was assembled from
(each chunk modelled by its byte size) and its MIME type.  Models the `Blob`
built in `recorder.onstop`; the object URL handle is identified with the blob
it denotes. -/
structure Blob where
  chunks : List Nat
  ctype : String
deriving DecidableEq, Repr

/-- Handle to a platform encoder, models `MediaRecorder`: we track the MIME
type it was created with. -/
structure RecorderHandle where
  mimeType : String
deriving DecidableEq, Repr

/-- The controller state of the component: camera/recording state
(`stream`, `isRecording`, `videoUrl`, `recordedChunksRef`, `mediaRecorderRef`)
and teleprompter scroll state (`isScrolling`, `isDragging`, `scrollPosRef`,
the rendered `scrollTop` of the scroll container, the drag anchor refs
`startY`/`startScrollTop`, and `config.speed`).  The scroll container is
modelled as mounted (the handlers can only fire on the rendered element, so
the `scrollContainerRef.current` null checks are vacuously passed). -/
structure AppState where
  stream : Option Unit
  isRecording : Bool
  videoUrl : Option Blob
  recordedChunks : List Nat
  mediaRecorder : Option RecorderHandle
  isScrolling : Bool
  isDragging : Bool
  scrollPos : ℚ
  scrollTop : ℚ
  startY : ℚ
  startScrollTop : ℚ
  speed : ℚ
deriving DecidableEq, Repr

/-- The browser clamps every write to an element's `scrollTop` property into
`[0, scrollHeight - clientHeight]` (CSSOM contract of the platform, not code
of the component).  `m` is the maximal scroll extent
`scrollHeight - clientHeight`. -/
def clampScroll (m v : ℚ) : ℚ := max 0 (min v m)

/-- One tick of the `animate` frame callback.  `m` is the maximal scroll
extent recomputed on the tick (`scrollHeight - clientHeight`).  Mirrors the
source: if auto-scrolling and not dragging, advance `scrollPosRef` by
`config.speed * 0.3`, clamp at `maxScroll` (disabling auto-scroll there), and
write the result to the container's `scrollTop`; otherwise resynchronise
`scrollPosRef` from the rendered `scrollTop`. -/
def animate (m : ℚ) (s : AppState) : AppState :=
  if s.isScrolling && !s.isDragging then
    if m ≤ s.scrollPos + s.speed * (3 / 10) then
      { s with scrollPos := m, isScrolling := false, scrollTop := clampScroll m m }
    else
      { s with scrollPos := s.scrollPos + s.speed * (3 / 10)
               scrollTop := clampScroll m (s.scrollPos + s.speed * (3 / 10)) }
  else
    { s with scrollPos := s.scrollTop }

/-- `handleMouseDown`: enter the Dragging state, capture the drag anchor
(pointer y relative to the container, current scroll offset), and pause
auto-scroll. -/
def handleMouseDown (pageY offsetTop : ℚ) (s : AppState) : AppState :=
  { s with isDragging := true
           startY := pageY - offsetTop
           startScrollTop := s.scrollTop
           isScrolling := false }

/-- `handleMouseMove`: while dragging, write
`startScrollTop - (y - startY) * 1.5` to the rendered scroll offset (the
platform clamps the write); otherwise do nothing. -/
def handleMouseMove (m pageY offsetTop : ℚ) (s : AppState) : AppState :=
  if s.isDragging then
    { s with scrollTop :=
        clampScroll m (s.startScrollTop - (pageY - offsetTop - s.startY) * (3 / 2)) }
  else
    s

/-- `handleMouseUp` (also bound to mouse-leave): leave the Dragging state. -/
def handleMouseUp (s : AppState) : AppState :=
  { s with isDragging := false }

/-- `handleTouchStart`: pause auto-scroll on touch. -/
def handleTouchStart (s : AppState) : AppState :=
  { s with isScrolling := false }

/-- The ordered codec preference list tried by `startRecording`. -/
def mimeTypes : List String :=
  ["video/mp4;codecs=h264,aac",
   "video/mp4",
   "video/webm;codecs=vp9,opus",
   "video/webm;codecs=vp8,opus",
   "video/webm"]

/-- `mimeTypes.find(type => MediaRecorder.isTypeSupported(type)) || 'video/webm'`:
the first entry accepted by the platform's support predicate, defaulting to
`"video/webm"`. -/
def selectMimeType (supported : String → Bool) : String :=
  (mimeTypes.find? supported).getD "video/webm"

/-- `startRecording`: guarded only by stream presence (`if (!stream) return`).
Otherwise clears the chunk buffer and the result handle, selects a codec,
creates a fresh recorder, starts it, and sets both `isRecording` and
`isScrolling`. -/
def startRecording (supported : String → Bool) (s : AppState) : AppState :=
  if s.stream = none then s
  else
    { s with recordedChunks := []
             videoUrl := none
             mediaRecorder := some ⟨selectMimeType supported⟩
             isRecording := true
             isScrolling := true }

/-- `recorder.ondataavailable`: append the delivered chunk to the buffer only
if it is non-empty (`e.data.size > 0`). -/
def handleDataAvailable (size : Nat) (s : AppState) : AppState :=
  if 0 < size then { s with recordedChunks := s.recordedChunks ++ [size] } else s

/-- `recorder.onstop`: assemble the buffered chunks into a blob with the
recorder's MIME type and expose its handle via `videoUrl`. -/
def onStop (s : AppState) : AppState :=
  match s.mediaRecorder with
  | some r => { s with videoUrl := some ⟨s.recordedChunks, r.mimeType⟩ }
  | none => s

/-- `stopRecording`: guarded by `mediaRecorderRef.current && isRecording`;
requests the encoder stop (the `onstop` callback is delivered as a separate
event, see `onStop`) and clears the recording and auto-scroll flags. -/
def stopRecording (s : AppState) : AppState :=
  if s.mediaRecorder.isSome && s.isRecording then
    { s with isRecording := false, isScrolling := false }
  else
    s

/-- The record button dispatches `stopRecording` when recording,
`startRecording` otherwise (`onClick={isRecording ? stopRecording : startRecording}`). -/
def recordButtonClick (supported : String → Bool) (s : AppState) : AppState :=
  if s.isRecording then stopRecording s else startRecording supported s

/-- The rewind button's `onClick`: set `scrollPosRef.current = 0` and write 0
to the container's `scrollTop`. -/
def resetScroll (m : ℚ) (s : AppState) : AppState :=
  { s with scrollPos := 0, scrollTop := clampScroll m 0 }

/-- The play/pause button's `onClick`: toggle auto-scrolling. -/
def toggleScrolling (s : AppState) : AppState :=
  { s with isScrolling := !s.isScrolling }

/-- Discrete events driving the controller: the animation-frame tick, the
pointer handlers of the scroll container (mouse-leave is bound to the same
handler as mouse-up), the touch handler, the play/pause, rewind and record
buttons, and the encoder callbacks. -/
inductive AppEvent
  | tick
  | mouseDown (pageY offsetTop : ℚ)
  | mouseMove (pageY offsetTop : ℚ)
  | mouseUp
  | touchStart
  | toggleScrollBtn
  | resetScrollBtn
  | recordBtn
  | dataAvailable (size : Nat)
  | recorderStopped
deriving DecidableEq, Repr

/-- Dispatch one event to its handler.  `supported` is the platform's codec
support predicate, `m` the maximal scroll extent. -/
def step (supported : String → Bool) (m : ℚ) (s : AppState) : AppEvent → AppState
  | .tick => animate m s
  | .mouseDown pageY offsetTop => handleMouseDown pageY offsetTop s
  | .mouseMove pageY offsetTop => handleMouseMove m pageY offsetTop s
  | .mouseUp => handleMouseUp s
  | .touchStart => handleTouchStart s
  | .toggleScrollBtn => toggleScrolling s
  | .resetScrollBtn => resetScroll m s
  | .recordBtn => recordButtonClick supported s
  | .dataAvailable size => handleDataAvailable size s
  | .recorderStopped => onStop s

/-- Run a sequence of events from a state. -/
def run (supported : String → Bool) (m : ℚ) (s : AppState) (es : List AppEvent) : AppState :=
  es.foldl (step supported m) s

/-- The scroll-clamping invariant of the spec: both the internal position ref
and the rendered scroll offset lie in `[0, maxScrollExtent]`. -/
def ScrollInv (m : ℚ) (s : AppState) : Prop :=
  0 ≤ s.scrollPos ∧ s.scrollPos ≤ m ∧ 0 ≤ s.scrollTop ∧ s.scrollTop ≤ m

/-! ## Camera acquisition (`initCamera`) as an effect trace -/

/-- Which physical camera is requested (`facingMode`). -/
inductive Facing
  | user
  | environment
deriving DecidableEq, Repr

/-- `toggleCamera`: `setFacingMode(prev => prev === 'user' ? 'environment' : 'user')`. -/
def toggleCamera : Facing → Facing
  | .user => .environment
  | .environment => .user

/-- Observable actions of `initCamera`, in program order: stopping one track
of the held stream, nulling `streamRef`, clearing the video element's source,
and issuing a `getUserMedia` request (`some facing` for the constrained
request, `none` for the basic fallback constraints used after a failure). -/
inductive CamAction
  | stopTrack (t : Nat)
  | clearStreamRef
  | clearVideoSrc
  | request (facing : Option Facing)
deriving DecidableEq, Repr

/-- The sequence of actions `initCamera` performs, given the tracks of the
currently held stream (`streamRef.current`, `none` when no stream is held),
the current facing mode, and whether the first `getUserMedia` call fails
(which triggers the basic-constraints fallback request in the catch block). -/
def initCameraTrace (held : Option (List Nat)) (facing : Facing) (firstFails : Bool) :
    List CamAction :=
  (match held with
   | some ts => ts.map CamAction.stopTrack ++ [CamAction.clearStreamRef]
   | none => [])
  ++ [CamAction.clearVideoSrc, CamAction.request (some facing)]
  ++ (if firstFails then [CamAction.request none] else [])

/-- Is this action a `getUserMedia` request? -/
def isRequest : CamAction → Bool
  | .request _ => true
  | _ => false

/-- Is this action a track stop? -/
def isStop : CamAction → Bool
  | .stopTrack _ => true
  | _ => false

/-- No track stop occurs after any acquisition request in the trace: every
release precedes every request. -/
def stopsPrecedeRequests : List CamAction → Bool
  | [] => true
  | a :: rest =>
    (if isRequest a then rest.all (fun b => !isStop b) else true) && stopsPrecedeRequests rest

/-! ## The share-app action (`shareApp`) as an effect trace -/

/-- Observable effects of `shareApp`: invoking the native share sheet,
attempting a clipboard write, showing a blocking alert, logging an error. -/
inductive ShareEffect
  | nativeShare (title text url : String)
  | clipboardWrite (s : String)
  | alertMsg (s : String)
  | logError (s : String)
deriving DecidableEq, Repr

/-- The share-sheet title used by `shareApp`. -/
def appShareTitle : String := "蔡哥保平安提词器"

/-- The share-sheet text used by `shareApp`. -/
def appShareText : String := "推荐一个超好用的专业口播提词器！"

/-- The confirmation alert shown after a successful clipboard copy. -/
def copiedAlert : String := "应用链接已复制到剪贴板，快去分享给朋友吧！"

/-- The effects `shareApp` performs, given whether `navigator.share` exists,
whether the native share call rejects, whether the clipboard write rejects,
and the page URL.  If the share API exists it is invoked and a failure is
only logged; only when it does not exist is the clipboard fallback taken,
with the confirmation alert on success. -/
def shareApp (hasNativeShare shareFails clipboardFails : Bool) (href : String) :
    List ShareEffect :=
  if hasNativeShare then
    if shareFails then
      [ShareEffect.nativeShare appShareTitle appShareText href,
       ShareEffect.logError "Share app failed:"]
    else
      [ShareEffect.nativeShare appShareTitle appShareText href]
  else
    if clipboardFails then
      [ShareEffect.clipboardWrite href, ShareEffect.logError "Copy failed:"]
    else
      [ShareEffect.clipboardWrite href, ShareEffect.alertMsg copiedAlert]

/-- Does the effect copy to the clipboard or raise the visible confirmation? -/
def isClipboardOrAlert : ShareEffect → Bool
  | .clipboardWrite _ => true
  | .alertMsg _ => true
  | _ => false

/-! ## Concrete states used in witnesses and counterexamples -/

/-- The component's initial state before a camera stream is acquired. -/
def idleState : AppState :=
  { stream := none, isRecording := false, videoUrl := none, recordedChunks := [],
    mediaRecorder := none, isScrolling := false, isDragging := false,
    scrollPos := 0, scrollTop := 0, startY := 0, startScrollTop := 0, speed := 2 }

/-- Idle state once the camera stream is live. -/
def liveState : AppState :=
  { idleState with stream := some () }

/-- A state in the middle of an active recording session. -/
def recordingState : AppState :=
  { stream := some (), isRecording := true, videoUrl := some ⟨[7], "video/webm"⟩,
    recordedChunks := [7], mediaRecorder := some ⟨"video/webm"⟩,
    isScrolling := true, isDragging := false, scrollPos := 0, scrollTop := 0,
    startY := 0, startScrollTop := 0, speed := 2 }

/-- Auto-scrolling at offset 995 with the speed slider at 10. -/
def tickState995 : AppState :=
  { stream := some (), isRecording := false, videoUrl := none, recordedChunks := [],
    mediaRecorder := none, isScrolling := true, isDragging := false,
    scrollPos := 995, scrollTop := 995, startY := 0, startScrollTop := 0, speed := 10 }

/-- Auto-scrolling at offset 997 with the speed slider at 10. -/
def tickState997 : AppState :=
  { tickState995 with scrollPos := 997, scrollTop := 997 }

/-- Auto-scrolling mid-script at offset 50. -/
def scrollingState : AppState :=
  { idleState with isScrolling := true, scrollPos := 50, scrollTop := 50 }

/-! ## Helper lemmas -/

/-- `List.find?` returns the element at the first index satisfying the
predicate. -/
theorem find_first {α : Type} (p : α → Bool) :
    ∀ (l : List α) (i : Nat) (h : i < l.length),
      p (l.get ⟨i, h⟩) = true →
      (∀ j (hj : j < i), p (l.get ⟨j, Nat.lt_trans hj h⟩) = false) →
      l.find? p = some (l.get ⟨i, h⟩)
  | a :: _, 0, _, hp, _ => by
    have hp' : p a = true := hp
    simp [List.find?, hp']
  | a :: t, i + 1, h, hp, hprev => by
    have ha : p a = false := hprev 0 (Nat.succ_pos i)
    have ht := find_first p t i (Nat.lt_of_succ_lt_succ h) hp
      (fun j hj => hprev (j + 1) (Nat.succ_lt_succ hj))
    simp [List.find?, ha, ht]

/-- Writing 0 to `scrollTop` always renders offset 0. -/
theorem clampScroll_zero (m : ℚ) : clampScroll m 0 = 0 := by
  unfold clampScroll
  rcases le_total (0 : ℚ) m with h | h
  · rw [min_eq_left h, max_self]
  · rw [min_eq_right h, max_eq_left h]

/-- The rendered scroll offset is never negative. -/
theorem clampScroll_nonneg (m v : ℚ) : 0 ≤ clampScroll m v := le_max_left 0 _

/-- The rendered scroll offset never exceeds the scroll extent. -/
theorem clampScroll_le (m v : ℚ) (hm : 0 ≤ m) : clampScroll m v ≤ m :=
  max_le hm (min_le_right v m)

/-! ## Claim theorems -/

/-- C4: `startRecording` selects the first entry of the ordered preference
list `mimeTypes` accepted by the platform's support predicate, defaults to
`"video/webm"` when none is accepted, and in particular selects the last
listed entry when it is the only supported one. -/
theorem codec_selection (f : String → Bool) :
    (∀ i (h : i < mimeTypes.length), f (mimeTypes.get ⟨i, h⟩) = true →
      (∀ j (hj : j < i), f (mimeTypes.get ⟨j, Nat.lt_trans hj h⟩) = false) →
      selectMimeType f = mimeTypes.get ⟨i, h⟩)
    ∧ ((∀ m ∈ mimeTypes, f m = false) → selectMimeType f = "video/webm")
    ∧ selectMimeType (fun m => m == "video/webm") = "video/webm" := by
  refine ⟨?_, ?_, ?_⟩
  · intro i h hp hprev
    unfold selectMimeType
    rw [find_first f mimeTypes i h hp hprev]
    rfl
  · intro hall
    unfold selectMimeType
    rw [List.find?_eq_none.mpr (fun x hx => by simp [hall x hx])]
    rfl
  · rfl

/-- Witness for C4: with only `"video/mp4"` supported, the scan skips the
unsupported first entry and selects `"video/mp4"`. -/
theorem codec_selection_witness :
    selectMimeType (fun m => m == "video/mp4") = "video/mp4" :=
  (codec_selection (fun m => m == "video/mp4")).1 1 (by decide) (by decide) (by decide)

/-- C8: `startRecording` with no camera stream is a no-op: the state is
returned unchanged, so no flag flips, no encoder is created, and the chunk
buffer and result handle are untouched. -/
theorem startRecording_no_stream (f : String → Bool) (s : AppState)
    (h : s.stream = none) : startRecording f s = s := by
  simp [startRecording, h]

/-- Witness for C8: starting from the concrete streamless idle state. -/
theorem startRecording_no_stream_witness :
    startRecording (fun _ => true) idleState = idleState :=
  startRecording_no_stream (fun _ => true) idleState rfl

/-- C2 (counterexample): invoked in a Recording state with a live stream,
`startRecording` is not a no-op — it clears the chunk buffer and the result
handle and installs a fresh encoder. -/
theorem start_while_recording_counterexample :
    recordingState.isRecording = true
    ∧ startRecording (fun _ => true) recordingState ≠ recordingState
    ∧ (startRecording (fun _ => true) recordingState).recordedChunks = []
    ∧ (startRecording (fun _ => true) recordingState).videoUrl = none
    ∧ (startRecording (fun _ => true) recordingState).mediaRecorder
        = some ⟨"video/mp4;codecs=h264,aac"⟩ := by
  refine ⟨rfl, ?_, rfl, rfl, rfl⟩
  intro hEq
  exact absurd (congrArg AppState.recordedChunks hEq) (by decide)

/-- C2 (amended): `startRecording` has no recording-state guard — with a live
stream it always resets the buffer and result handle and creates a fresh
encoder — but the record button dispatches `stopRecording`, not
`startRecording`, whenever `isRecording` is set, so a second session is never
started through the UI. -/
theorem start_guard_amended (f : String → Bool) (s : AppState)
    (h : s.isRecording = true) :
    recordButtonClick f s = stopRecording s
    ∧ (∀ u, s.stream = some u →
        (startRecording f s).recordedChunks = []
        ∧ (startRecording f s).videoUrl = none
        ∧ (startRecording f s).mediaRecorder = some ⟨selectMimeType f⟩
        ∧ (startRecording f s).isRecording = true) := by
  constructor
  · simp [recordButtonClick, h]
  · intro u hu
    simp [startRecording, hu]

/-- Witness for C2 (amended): at the concrete mid-recording state. -/
theorem start_guard_amended_witness :
    recordButtonClick (fun _ => true) recordingState = stopRecording recordingState
    ∧ (startRecording (fun _ => true) recordingState).recordedChunks = []
    ∧ (startRecording (fun _ => true) recordingState).videoUrl = none
    ∧ (startRecording (fun _ => true) recordingState).mediaRecorder
        = some ⟨selectMimeType (fun _ => true)⟩
    ∧ (startRecording (fun _ => true) recordingState).isRecording = true :=
  ⟨(start_guard_amended (fun _ => true) recordingState rfl).1,
   (start_guard_amended (fun _ => true) recordingState rfl).2 () rfl⟩

/-- C9 (counterexample): with the native share API present but the share call
failing, `shareApp` only logs the error — it performs no clipboard copy and
shows no confirmation. -/
theorem shareApp_failure_counterexample :
    shareApp true true false "https://example.app/"
      = [ShareEffect.nativeShare appShareTitle appShareText "https://example.app/",
         ShareEffect.logError "Share app failed:"]
    ∧ (shareApp true true false "https://example.app/").all
        (fun e => !isClipboardOrAlert e) = true :=
  ⟨rfl, rfl⟩

/-- C9 (amended): the clipboard fallback with its synchronous visible
confirmation is taken only when the native share API is unsupported; a
failure of the native share call itself is only logged, with no clipboard
copy and no notification. -/
theorem shareApp_fallback_amended (href : String) (cf : Bool) :
    shareApp false false false href
      = [ShareEffect.clipboardWrite href, ShareEffect.alertMsg copiedAlert]
    ∧ shareApp true true cf href
      = [ShareEffect.nativeShare appShareTitle appShareText href,
         ShareEffect.logError "Share app failed:"]
    ∧ (shareApp true true cf href).all (fun e => !isClipboardOrAlert e) = true :=
  ⟨rfl, rfl, rfl⟩

/-- C1 (counterexample): from `position = 995`, `scrollSpeed = 10` and
`maxScrollExtent = 1000`, one tick advances by `10 * 0.3 = 3` to 998 — it
does not clamp to 1000 and auto-scroll stays enabled. -/
theorem tick_clamp_counterexample :
    (animate 1000 tickState995).scrollPos = 998
    ∧ (animate 1000 tickState995).isScrolling = true
    ∧ ¬((animate 1000 tickState995).scrollPos = 1000
        ∧ (animate 1000 tickState995).isScrolling = false) := by
  have h1 : (animate 1000 tickState995).scrollPos = 998 := by
    norm_num [animate, tickState995, clampScroll]
  have h2 : (animate 1000 tickState995).isScrolling = true := by
    norm_num [animate, tickState995]
  refine ⟨h1, h2, ?_⟩
  intro hcontra
  rw [h1] at hcontra
  norm_num at hcontra

/-- C1 (amended): one tick with auto-scroll enabled and no drag active
advances `position` by `scrollSpeed * 0.3` (the base rate), clamping to
`maxScrollExtent` and disabling auto-scroll exactly when the advanced
position reaches the extent; in particular with `maxScrollExtent = 1000` and
`scrollSpeed = 10`, the clamp fires from `position = 997` (997 + 3 = 1000),
not from 995. -/
theorem tick_advance_amended (m : ℚ) (s : AppState)
    (h1 : s.isScrolling = true) (h2 : s.isDragging = false) :
    (m ≤ s.scrollPos + s.speed * (3 / 10) →
      (animate m s).scrollPos = m ∧ (animate m s).isScrolling = false)
    ∧ (s.scrollPos + s.speed * (3 / 10) < m →
      (animate m s).scrollPos = s.scrollPos + s.speed * (3 / 10)
        ∧ (animate m s).isScrolling = true)
    ∧ ((animate 1000 tickState997).scrollPos = 1000
        ∧ (animate 1000 tickState997).isScrolling = false) := by
  refine ⟨?_, ?_, ?_⟩
  · intro hge
    simp [animate, h1, h2, hge]
  · intro hlt
    simp [animate, h1, h2, not_le.mpr hlt]
  · constructor
    · norm_num [animate, tickState997, tickState995, clampScroll]
    · norm_num [animate, tickState997, tickState995]

/-- Witness for C1 (amended): the non-clamping branch at the concrete state
`position = 995`, `scrollSpeed = 10`, `maxScrollExtent = 1000`. -/
theorem tick_advance_amended_witness :
    (animate 1000 tickState995).scrollPos = 995 + 10 * (3 / 10)
    ∧ (animate 1000 tickState995).isScrolling = true :=
  (tick_advance_amended 1000 tickState995 rfl rfl).2.1
    (show (995 : ℚ) + 10 * (3 / 10) < 1000 by norm_num)

/-- All-zero-size chunk deliveries leave the state unchanged (the
`ondataavailable` handler drops empty chunks). -/
theorem foldl_data_zero (sizes : List Nat) (hz : ∀ n ∈ sizes, n = 0) :
    ∀ s : AppState, sizes.foldl (fun st n => handleDataAvailable n st) s = s := by
  induction sizes with
  | nil => intro s; rfl
  | cons a t ih =>
    intro s
    have ha : a = 0 := hz a (by simp)
    show t.foldl (fun st n => handleDataAvailable n st) (handleDataAvailable a s) = s
    rw [ha, show handleDataAvailable 0 s = s from rfl]
    exact ih (fun n hn => hz n (by simp [hn])) s

/-- C5: with a live stream, `startRecording` followed by any run of empty
chunk deliveries, `stopRecording`, and the `onstop` callback yields a
non-null result handle assembled from the empty chunk sequence (with the
selected MIME type) and clears `isRecording` — the controller reaches the
Reviewing state. -/
theorem start_stop_roundtrip (f : String → Bool) (s : AppState) (sizes : List Nat)
    (hs : s.stream = some ()) (hz : ∀ n ∈ sizes, n = 0) :
    (onStop (stopRecording (sizes.foldl (fun st n => handleDataAvailable n st)
        (startRecording f s)))).videoUrl = some ⟨[], selectMimeType f⟩
    ∧ (onStop (stopRecording (sizes.foldl (fun st n => handleDataAvailable n st)
        (startRecording f s)))).isRecording = false := by
  rw [foldl_data_zero sizes hz]
  have h1 : startRecording f s
      = { s with recordedChunks := [], videoUrl := none,
                 mediaRecorder := some ⟨selectMimeType f⟩,
                 isRecording := true, isScrolling := true } := by
    simp [startRecording, hs]
  rw [h1]
  simp [stopRecording, onStop]

/-- Witness for C5: from the concrete live-camera idle state with two empty
chunk deliveries. -/
theorem start_stop_roundtrip_witness :
    (onStop (stopRecording (([0, 0] : List Nat).foldl
        (fun st n => handleDataAvailable n st)
        (startRecording (fun _ => false) liveState)))).videoUrl
      = some ⟨[], selectMimeType (fun _ => false)⟩
    ∧ (onStop (stopRecording (([0, 0] : List Nat).foldl
        (fun st n => handleDataAvailable n st)
        (startRecording (fun _ => false) liveState)))).isRecording = false :=
  start_stop_roundtrip (fun _ => false) liveState [0, 0] rfl (by decide)

/-- C10: the rewind control zeroes both the internal position ref and the
rendered scroll offset and changes nothing else — `isScrolling`,
`isRecording`, the chunk buffer and the result handle are untouched — so if
auto-scroll is active (and no drag is in progress) the next tick advances
from offset 0. -/
theorem reset_scroll (m : ℚ) (s : AppState) :
    (resetScroll m s).scrollPos = 0
    ∧ (resetScroll m s).scrollTop = 0
    ∧ (resetScroll m s).isScrolling = s.isScrolling
    ∧ (resetScroll m s).isRecording = s.isRecording
    ∧ (resetScroll m s).recordedChunks = s.recordedChunks
    ∧ (resetScroll m s).videoUrl = s.videoUrl
    ∧ (s.isScrolling = true → s.isDragging = false → s.speed * (3 / 10) < m →
        (animate m (resetScroll m s)).scrollPos = s.speed * (3 / 10)
        ∧ (animate m (resetScroll m s)).isScrolling = true) := by
  refine ⟨rfl, clampScroll_zero m, rfl, rfl, rfl, rfl, ?_⟩
  intro h1 h2 h3
  constructor
  · simp [animate, resetScroll, h1, h2, not_le.mpr h3]
  · simp [animate, resetScroll, h1, h2, not_le.mpr h3]

/-- Witness for C10: resetting while auto-scrolling at offset 50 with speed 2
and extent 100, then ticking once, lands at `2 * 0.3 = 0.6`. -/
theorem reset_scroll_witness :
    (animate 100 (resetScroll 100 scrollingState)).scrollPos = 2 * (3 / 10)
    ∧ (animate 100 (resetScroll 100 scrollingState)).isScrolling = true :=
  (reset_scroll 100 scrollingState).2.2.2.2.2.2 rfl rfl
    (show (2 : ℚ) * (3 / 10) < 100 by norm_num)

/-- Track stops at the head of a trace do not affect the
release-before-request check. -/
theorem stopsPrecede_append_stops (ts : List Nat) (tail : List CamAction) :
    stopsPrecedeRequests (ts.map CamAction.stopTrack ++ tail)
      = stopsPrecedeRequests tail := by
  induction ts with
  | nil => rfl
  | cons a t ih => simp [stopsPrecedeRequests, isRequest, ih]

/-- C7: when a stream is held and the facing mode is toggled, `initCamera`
stops every track of the held stream, issues the new acquisition request, and
performs every stop before any request — so two live device streams are never
held simultaneously.  `b` covers both the successful first request and the
basic-constraints fallback after a failure. -/
theorem camera_switch_release (ts : List Nat) (held : Option (List Nat))
    (fc : Facing) (b : Bool) (h : held = some ts) :
    (∀ t ∈ ts, CamAction.stopTrack t ∈ initCameraTrace held (toggleCamera fc) b)
    ∧ CamAction.request (some (toggleCamera fc)) ∈ initCameraTrace held (toggleCamera fc) b
    ∧ stopsPrecedeRequests (initCameraTrace held (toggleCamera fc) b) = true := by
  subst h
  have htr : initCameraTrace (some ts) (toggleCamera fc) b
      = ts.map CamAction.stopTrack
        ++ ([CamAction.clearStreamRef, CamAction.clearVideoSrc,
             CamAction.request (some (toggleCamera fc))]
            ++ (if b then [CamAction.request none] else [])) := by
    simp [initCameraTrace]
  refine ⟨?_, ?_, ?_⟩
  · intro t ht
    rw [htr]
    exact List.mem_append_left _ (List.mem_map_of_mem CamAction.stopTrack ht)
  · rw [htr]
    exact List.mem_append_right _ (by simp)
  · rw [htr, stopsPrecede_append_stops]
    cases b <;> simp [stopsPrecedeRequests, isRequest, isStop]

/-- Witness for C7: toggling from the front camera while holding a
two-track stream. -/
theorem camera_switch_release_witness :
    CamAction.stopTrack 1 ∈ initCameraTrace (some [1, 2]) (toggleCamera Facing.user) false
    ∧ CamAction.request (some (toggleCamera Facing.user))
        ∈ initCameraTrace (some [1, 2]) (toggleCamera Facing.user) false
    ∧ stopsPrecedeRequests
        (initCameraTrace (some [1, 2]) (toggleCamera Facing.user) false) = true :=
  ⟨(camera_switch_release [1, 2] (some [1, 2]) Facing.user false rfl).1 1 (by simp),
   (camera_switch_release [1, 2] (some [1, 2]) Facing.user false rfl).2.1,
   (camera_switch_release [1, 2] (some [1, 2]) Facing.user false rfl).2.2⟩

/-- Pointer-move events as controller events. -/
def moveEvents (moves : List (ℚ × ℚ)) : List AppEvent :=
  moves.map (fun p => AppEvent.mouseMove p.1 p.2)

/-- Pointer moves never touch the auto-scroll flag. -/
theorem run_moves_isScrolling (f : String → Bool) (m : ℚ) (moves : List (ℚ × ℚ)) :
    ∀ s : AppState, (run f m s (moveEvents moves)).isScrolling = s.isScrolling := by
  induction moves with
  | nil => intro s; rfl
  | cons a t ih =>
    intro s
    show (run f m (handleMouseMove m a.1 a.2 s) (moveEvents t)).isScrolling = _
    rw [ih]
    unfold handleMouseMove
    split <;> rfl

/-- C6: a pointer-down disables auto-scrolling, every run of pointer-moves
keeps it disabled (instantiating `moves` with each prefix of the drag gives
every intermediate state), and it is still disabled immediately after the
pointer-up or pointer-leave that ends the drag. -/
theorem drag_suspends_autoscroll (f : String → Bool) (m : ℚ) (s : AppState)
    (pageY offsetTop : ℚ) (moves : List (ℚ × ℚ)) :
    (handleMouseDown pageY offsetTop s).isScrolling = false
    ∧ (run f m (handleMouseDown pageY offsetTop s) (moveEvents moves)).isScrolling = false
    ∧ (handleMouseUp (run f m (handleMouseDown pageY offsetTop s)
        (moveEvents moves))).isScrolling = false := by
  have hdown : (handleMouseDown pageY offsetTop s).isScrolling = false := rfl
  have hrun := run_moves_isScrolling f m moves (handleMouseDown pageY offsetTop s)
  exact ⟨hdown, hrun.trans hdown, hrun.trans hdown⟩

/-- No event changes the configured scroll speed. -/
theorem step_speed (f : String → Bool) (m : ℚ) (s : AppState) (e : AppEvent) :
    (step f m s e).speed = s.speed := by
  cases e <;>
    simp only [step, animate, handleMouseDown, handleMouseMove, handleMouseUp,
      handleTouchStart, toggleScrolling, resetScroll, recordButtonClick,
      startRecording, stopRecording, handleDataAvailable, onStop] <;>
    (repeat' split) <;> rfl

/-- Every single event preserves the scroll-clamping invariant (with a
non-negative extent and speed). -/
theorem step_scrollInv (f : String → Bool) (m : ℚ) (s : AppState) (e : AppEvent)
    (hm : 0 ≤ m) (hsp : 0 ≤ s.speed) (h : ScrollInv m s) :
    ScrollInv m (step f m s e) := by
  obtain ⟨h1, h2, h3, h4⟩ := h
  cases e with
  | tick =>
    show ScrollInv m (animate m s)
    unfold animate
    split
    · split
      · exact ⟨hm, le_refl m, clampScroll_nonneg _ _, clampScroll_le _ _ hm⟩
      · rename_i hge
        exact ⟨add_nonneg h1 (mul_nonneg hsp (by norm_num)),
               le_of_lt (not_le.mp hge),
               clampScroll_nonneg _ _, clampScroll_le _ _ hm⟩
    · exact ⟨h3, h4, h3, h4⟩
  | mouseDown _ _ => exact ⟨h1, h2, h3, h4⟩
  | mouseMove p o =>
    show ScrollInv m (handleMouseMove m p o s)
    unfold handleMouseMove
    split
    · exact ⟨h1, h2, clampScroll_nonneg _ _, clampScroll_le _ _ hm⟩
    · exact ⟨h1, h2, h3, h4⟩
  | mouseUp => exact ⟨h1, h2, h3, h4⟩
  | touchStart => exact ⟨h1, h2, h3, h4⟩
  | toggleScrollBtn => exact ⟨h1, h2, h3, h4⟩
  | resetScrollBtn =>
    exact ⟨le_refl 0, hm, clampScroll_nonneg _ _, clampScroll_le _ _ hm⟩
  | recordBtn =>
    show ScrollInv m (recordButtonClick f s)
    unfold recordButtonClick startRecording stopRecording
    (repeat' split) <;> exact ⟨h1, h2, h3, h4⟩
  | dataAvailable n =>
    show ScrollInv m (handleDataAvailable n s)
    unfold handleDataAvailable
    split <;> exact ⟨h1, h2, h3, h4⟩
  | recorderStopped =>
    show ScrollInv m (onStop s)
    unfold onStop
    split <;> exact ⟨h1, h2, h3, h4⟩

/-- C3: over every sequence of controller events — ticks, arbitrary drags
included — both the internal position ref and the rendered scroll offset stay
in `[0, maxScrollExtent]`, however large the pointer displacements are. -/
theorem scroll_clamped (f : String → Bool) (m : ℚ) (s : AppState)
    (es : List AppEvent) (hm : 0 ≤ m) (hsp : 0 ≤ s.speed)
    (h : ScrollInv m s) : ScrollInv m (run f m s es) := by
  induction es generalizing s with
  | nil => exact h
  | cons e t ih =>
    show ScrollInv m (run f m (step f m s e) t)
    exact ih (step f m s e)
      (by rw [step_speed]; exact hsp)
      (step_scrollInv f m s e hm hsp h)

/-- Witness for C3: a tick, then a violent drag (pointer displacement far
beyond the extent), then another tick, starting mid-script with extent 100. -/
theorem scroll_clamped_witness :
    ScrollInv 100 (run (fun _ => true) 100 scrollingState
      [AppEvent.tick, AppEvent.mouseDown 5 0, AppEvent.mouseMove 100000 0,
       AppEvent.mouseUp, AppEvent.tick]) :=
  scroll_clamped (fun _ => true) 100 scrollingState
    [AppEvent.tick, AppEvent.mouseDown 5 0, AppEvent.mouseMove 100000 0,
     AppEvent.mouseUp, AppEvent.tick]
    (by norm_num)
    (show (0 : ℚ) ≤ 2 by norm_num)
    ⟨show (0 : ℚ) ≤ 50 by norm_num, show (50 : ℚ) ≤ 100 by norm_num,
     show (0 : ℚ) ≤ 50 by norm_num, show (50 : ℚ) ≤ 100 by norm_num⟩

end Teleprompter
